import Mathlib

/-!
Verification of the particle/gesture/obstacle engine.

The definitions below are a shallow embedding of the repository's code:

* gesture decision trees of the hand-tracking service (two-hand variant,
  current single-hand variant, and the older single-hand variant);
* the landmark-based gesture classifier of the two-hand variant
  (hand-scale-relative thresholds, minimum-scale acceptance guard);
* the dual-hand burst-trigger state machine;
* the burst-energy update of the particle physics engine;
* the obstacle spawn wave (safe-lane candidate selection, Fisher-Yates
  shuffle, pool activation loop) and the per-obstacle frame update
  (advance, collision resolution, off-screen deactivation/scoring)
  of the space game component.

JavaScript numbers are modelled as real numbers; `Math.random()` outputs
are modelled as oracle streams passed in as parameters.
-/

/-- Gesture enum of `types.ts`. -/
inductive GestureType where
  | NONE
  | OPEN_HAND
  | CLOSED_FIST
  | PINCH
  | POINT
  | OK_SIGN
  | THUMB_SCATTER
  deriving DecidableEq, Repr

/-- Obstacle type of the space game (`'OBSTACLE' | 'HEAL' | 'SLOW'`). -/
inductive ObstacleType where
  | OBSTACLE
  | HEAL
  | SLOW
  deriving DecidableEq, Repr

/-- Gesture decision tree shared by the two-hand hand-tracking service and
the current single-hand service: given the pose booleans it returns the
classified gesture.  Embeds

    if (isPinchPose && middleExt && ringExt && pinkyExt) OK_SIGN
    else if (isPinchPose) PINCH
    else if (indexExt && middleExt && ringExt && pinkyExt && thumbExt) OPEN_HAND
    else if (!indexExt && !middleExt && !ringExt && !pinkyExt) CLOSED_FIST
    else NONE. -/
def gestureDecision (isPinchPose indexExt middleExt ringExt pinkyExt thumbExt : Bool) :
    GestureType :=
  if isPinchPose && middleExt && ringExt && pinkyExt then GestureType.OK_SIGN
  else if isPinchPose then GestureType.PINCH
  else if indexExt && middleExt && ringExt && pinkyExt && thumbExt then GestureType.OPEN_HAND
  else if !indexExt && !middleExt && !ringExt && !pinkyExt then GestureType.CLOSED_FIST
  else GestureType.NONE

/-- Gesture decision tree of the older single-hand variant: the source
derives `isOkSign`, `isThumbScatter`, `isPoint`, `isPinch`, `isOpen`,
`isFist` and decides in that order. -/
def gestureDecisionOld (isPinchPose indexExt middleExt ringExt pinkyExt thumbExt : Bool) :
    GestureType :=
  let isOkSign := isPinchPose && middleExt && ringExt && pinkyExt
  let isThumbScatter := thumbExt && !indexExt && !middleExt && !ringExt && !pinkyExt
  let isPoint := indexExt && !middleExt && !ringExt && !pinkyExt
  let isPinch := isPinchPose && !isOkSign
  let isOpen := indexExt && middleExt && ringExt && pinkyExt && thumbExt
  let isFist := !indexExt && !middleExt && !ringExt && !pinkyExt && !thumbExt
  if isOkSign then GestureType.OK_SIGN
  else if isThumbScatter then GestureType.THUMB_SCATTER
  else if isPoint then GestureType.POINT
  else if isPinch then GestureType.PINCH
  else if isOpen then GestureType.OPEN_HAND
  else if isFist then GestureType.CLOSED_FIST
  else GestureType.NONE

/-- The precedence stated by the specification for the single-hand variant:
OK_SIGN, else PINCH, else OPEN_HAND, else CLOSED_FIST, else POINT
(index alone extended), else NONE.  This follows the spec's words, to be
compared with the decision trees embedded from the source. -/
def claimedGestureSingleHand (isPinchPose indexExt middleExt ringExt pinkyExt thumbExt : Bool) :
    GestureType :=
  if isPinchPose && middleExt && ringExt && pinkyExt then GestureType.OK_SIGN
  else if isPinchPose then GestureType.PINCH
  else if indexExt && middleExt && ringExt && pinkyExt && thumbExt then GestureType.OPEN_HAND
  else if !indexExt && !middleExt && !ringExt && !pinkyExt then GestureType.CLOSED_FIST
  else if indexExt && !middleExt && !ringExt && !pinkyExt then GestureType.POINT
  else GestureType.NONE

/-- The precedence stated by the specification for the two-hand variant
(no POINT case).  Follows the spec's words. -/
def claimedGestureTwoHand (isPinchPose indexExt middleExt ringExt pinkyExt thumbExt : Bool) :
    GestureType :=
  if isPinchPose && middleExt && ringExt && pinkyExt then GestureType.OK_SIGN
  else if isPinchPose then GestureType.PINCH
  else if indexExt && middleExt && ringExt && pinkyExt && thumbExt then GestureType.OPEN_HAND
  else if !indexExt && !middleExt && !ringExt && !pinkyExt then GestureType.CLOSED_FIST
  else GestureType.NONE

/-- Description of the older variant's actual precedence: OK_SIGN, then
THUMB_SCATTER (thumb extended with the four non-thumb digits curled), then
POINT (index alone extended), then PINCH, then OPEN_HAND, then CLOSED_FIST
(all five digits curled), else NONE. -/
def describedGestureOld (isPinchPose indexExt middleExt ringExt pinkyExt thumbExt : Bool) :
    GestureType :=
  if isPinchPose && middleExt && ringExt && pinkyExt then GestureType.OK_SIGN
  else if thumbExt && !indexExt && !middleExt && !ringExt && !pinkyExt then
    GestureType.THUMB_SCATTER
  else if indexExt && !middleExt && !ringExt && !pinkyExt then GestureType.POINT
  else if isPinchPose then GestureType.PINCH
  else if indexExt && middleExt && ringExt && pinkyExt && thumbExt then GestureType.OPEN_HAND
  else if !indexExt && !middleExt && !ringExt && !pinkyExt && !thumbExt then
    GestureType.CLOSED_FIST
  else GestureType.NONE

/-- C6, counterexample: the claimed precedence (POINT after CLOSED_FIST, in
the single-hand variant) disagrees with both single-hand decision trees in
the source.  With index alone extended and no pinch, the current
single-hand tree returns NONE where the claim requires POINT; with a pinch
pose while index alone is extended, the older tree returns POINT where the
claim requires PINCH; with thumb alone extended, the older tree returns
THUMB_SCATTER where the claim requires CLOSED_FIST. -/
theorem gesture_precedence_claim_false :
    gestureDecision false true false false false false = GestureType.NONE ∧
    claimedGestureSingleHand false true false false false false = GestureType.POINT ∧
    gestureDecisionOld true true false false false false = GestureType.POINT ∧
    claimedGestureSingleHand true true false false false false = GestureType.PINCH ∧
    gestureDecisionOld false false false false false true = GestureType.THUMB_SCATTER ∧
    claimedGestureSingleHand false false false false false true = GestureType.CLOSED_FIST := by
  decide

/-- C6, amended: the two-hand variant and the current single-hand variant
share the first-match precedence OK_SIGN, PINCH, OPEN_HAND, CLOSED_FIST
(four non-thumb digits curled), else NONE, with no POINT gesture at all;
the older single-hand variant decides OK_SIGN, THUMB_SCATTER, POINT (index
alone extended, checked before PINCH rather than last), PINCH, OPEN_HAND,
CLOSED_FIST (all five digits curled), else NONE. -/
theorem gesture_precedence_amended (p i m r k t : Bool) :
    gestureDecision p i m r k t = claimedGestureTwoHand p i m r k t ∧
    gestureDecisionOld p i m r k t = describedGestureOld p i m r k t := by
  revert p i m r k t
  decide

noncomputable section

open scoped Classical

/-- A 3D point (landmark or scene position); JS numbers modelled as reals. -/
structure Pt where
  x : ℝ
  y : ℝ
  z : ℝ

/-- The helper `Math.hypot(p1.x-p2.x, p1.y-p2.y, p1.z-p2.z)`: Euclidean distance in 3D,
the `dist` helper of the hand-tracking service and `Vector3.distanceTo`. -/
def dist3 (p q : Pt) : ℝ :=
  Real.sqrt ((p.x - q.x) ^ 2 + (p.y - q.y) ^ 2 + (p.z - q.z) ^ 2)

/-- The helper `Math.hypot(p1.x-p2.x, p1.y-p2.y)`: planar distance, used for the
palm-to-palm distance of the dual-hand burst detector. -/
def hypot2 (p q : Pt) : ℝ :=
  Real.sqrt ((p.x - q.x) ^ 2 + (p.y - q.y) ^ 2)

/-- A detected hand's landmark array, indexed as by MediaPipe
(0 wrist, 4 thumb tip, 5 index MCP, 6 index PIP, 8 index tip,
10/12 middle PIP/tip, 14/16 ring PIP/tip, 18/20 pinky PIP/tip). -/
def Landmarks : Type := ℕ → Pt

/-- Derived hand scale: `dist(wrist, indexMCP)`. -/
def handScale (l : Landmarks) : ℝ := dist3 (l 0) (l 5)

/-- Finger-extension test of the two-hand service:
`dist(tip, wrist) > dist(pip, wrist) + EXTENSION_BUFFER` with
`EXTENSION_BUFFER = handScale * 0.15`. -/
def fingerExtended (l : Landmarks) (tip pip : ℕ) : Prop :=
  dist3 (l tip) (l 0) > dist3 (l pip) (l 0) + handScale l * 0.15

/-- The `indexExt` test. -/
def indexExtP (l : Landmarks) : Prop := fingerExtended l 8 6

/-- The `middleExt` test. -/
def middleExtP (l : Landmarks) : Prop := fingerExtended l 12 10

/-- The `ringExt` test. -/
def ringExtP (l : Landmarks) : Prop := fingerExtended l 16 14

/-- The `pinkyExt` test. -/
def pinkyExtP (l : Landmarks) : Prop := fingerExtended l 20 18

/-- The thumb test `thumbExt = dist(thumbTip, indexMCP) > handScale * 0.5`. -/
def thumbExtP (l : Landmarks) : Prop := dist3 (l 4) (l 5) > handScale l * 0.5

/-- The pinch test `isPinchPose = dist(thumbTip, indexTip) < PINCH_THRESHOLD` with
`PINCH_THRESHOLD = handScale * 0.55`. -/
def isPinchPoseP (l : Landmarks) : Prop := dist3 (l 4) (l 8) < handScale l * 0.55

/-- The gesture computed by the two-hand service for one hand's landmarks:
the decision tree of `gestureDecision` applied to the landmark tests. -/
def gestureOf (l : Landmarks) : GestureType :=
  if isPinchPoseP l ∧ middleExtP l ∧ ringExtP l ∧ pinkyExtP l then GestureType.OK_SIGN
  else if isPinchPoseP l then GestureType.PINCH
  else if indexExtP l ∧ middleExtP l ∧ ringExtP l ∧ pinkyExtP l ∧ thumbExtP l then
    GestureType.OPEN_HAND
  else if ¬indexExtP l ∧ ¬middleExtP l ∧ ¬ringExtP l ∧ ¬pinkyExtP l then
    GestureType.CLOSED_FIST
  else GestureType.NONE

/-- Full per-hand classification of the two-hand service including the
acceptance guard `if (handScale < 0.015) return;`: a hand whose derived
scale is below the absolute minimum is skipped (no gesture). -/
def detectGesture (l : Landmarks) : Option GestureType :=
  if handScale l < 0.015 then none else some (gestureOf l)

/-- Pointwise scaling of a point by a constant factor. -/
def smulPt (c : ℝ) (p : Pt) : Pt := ⟨c * p.x, c * p.y, c * p.z⟩

/-- Scaling every landmark coordinate by a constant factor (the spec's
"simulating distance from camera"). -/
def scaleL (c : ℝ) (l : Landmarks) : Landmarks := fun i => smulPt c (l i)

theorem dist3_smul (c : ℝ) (hc : 0 ≤ c) (p q : Pt) :
    dist3 (smulPt c p) (smulPt c q) = c * dist3 p q := by
  unfold dist3 smulPt
  have h : (c * p.x - c * q.x) ^ 2 + (c * p.y - c * q.y) ^ 2 + (c * p.z - c * q.z) ^ 2
      = c ^ 2 * ((p.x - q.x) ^ 2 + (p.y - q.y) ^ 2 + (p.z - q.z) ^ 2) := by ring
  rw [h, Real.sqrt_mul (sq_nonneg c), Real.sqrt_sq hc]

theorem dist3_scaleL (c : ℝ) (hc : 0 ≤ c) (l : Landmarks) (i j : ℕ) :
    dist3 (scaleL c l i) (scaleL c l j) = c * dist3 (l i) (l j) := by
  unfold scaleL
  exact dist3_smul c hc _ _

theorem handScale_scaleL (c : ℝ) (hc : 0 ≤ c) (l : Landmarks) :
    handScale (scaleL c l) = c * handScale l := by
  unfold handScale
  exact dist3_scaleL c hc l 0 5

theorem fingerExtended_scaleL (c : ℝ) (hc : 0 < c) (l : Landmarks) (tip pip : ℕ) :
    fingerExtended (scaleL c l) tip pip ↔ fingerExtended l tip pip := by
  unfold fingerExtended
  rw [handScale_scaleL c hc.le, dist3_scaleL c hc.le, dist3_scaleL c hc.le]
  constructor <;> intro h <;> nlinarith

theorem thumbExt_scaleL (c : ℝ) (hc : 0 < c) (l : Landmarks) :
    thumbExtP (scaleL c l) ↔ thumbExtP l := by
  unfold thumbExtP
  rw [handScale_scaleL c hc.le, dist3_scaleL c hc.le]
  constructor <;> intro h <;> nlinarith

theorem isPinchPose_scaleL (c : ℝ) (hc : 0 < c) (l : Landmarks) :
    isPinchPoseP (scaleL c l) ↔ isPinchPoseP l := by
  unfold isPinchPoseP
  rw [handScale_scaleL c hc.le, dist3_scaleL c hc.le]
  constructor <;> intro h <;> nlinarith

theorem gestureOf_scaleL (l : Landmarks) (c : ℝ) (hc : 0 < c) :
    gestureOf (scaleL c l) = gestureOf l := by
  unfold gestureOf indexExtP middleExtP ringExtP pinkyExtP
  simp only [fingerExtended_scaleL c hc, thumbExt_scaleL c hc, isPinchPose_scaleL c hc]

/-- C8, amended: the gesture computation is scale-invariant — scaling all
landmarks by a positive constant yields the identical gesture, because the
extension, thumb and pinch thresholds are all proportional to the derived
hand scale; but the classifier's acceptance guard compares the hand scale
against the absolute constant 0.015, so the full per-hand classification is
preserved only when the scaled hand is still accepted. -/
theorem gesture_scale_invariant (l : Landmarks) (c : ℝ) (hc : 0 < c) :
    gestureOf (scaleL c l) = gestureOf l ∧
    (0.015 ≤ handScale l → 0.015 ≤ c * handScale l →
      detectGesture (scaleL c l) = detectGesture l) := by
  refine ⟨gestureOf_scaleL l c hc, fun h1 h2 => ?_⟩
  unfold detectGesture
  rw [handScale_scaleL c hc.le, if_neg (not_lt.mpr h2), if_neg (not_lt.mpr h1),
    gestureOf_scaleL l c hc]

theorem dist3_xaxis (a b : ℝ) : dist3 ⟨a, 0, 0⟩ ⟨b, 0, 0⟩ = |a - b| := by
  show Real.sqrt ((a - b) ^ 2 + (0 - 0) ^ 2 + (0 - 0) ^ 2) = |a - b|
  rw [show (a - b) ^ 2 + ((0:ℝ) - 0) ^ 2 + ((0:ℝ) - 0) ^ 2 = (a - b) ^ 2 by ring]
  exact Real.sqrt_sq_eq_abs _

/-- A concrete closed-fist landmark set, collinear on the x axis: wrist at
the origin, index MCP at x = 1 (hand scale 1), thumb tip at x = 1.2, every
other landmark at x = 2 (all PIPs and tips coincide, so no finger is
extended and no pinch pose holds). -/
def sampleFist : Landmarks := fun i =>
  if i = 0 then ⟨0, 0, 0⟩
  else if i = 4 then ⟨1.2, 0, 0⟩
  else if i = 5 then ⟨1, 0, 0⟩
  else ⟨2, 0, 0⟩

theorem sampleFist_handScale : handScale sampleFist = 1 := by
  unfold handScale
  rw [show sampleFist 0 = (⟨0, 0, 0⟩ : Pt) from rfl,
    show sampleFist 5 = (⟨1, 0, 0⟩ : Pt) from rfl, dist3_xaxis,
    abs_eq (by norm_num : (0:ℝ) ≤ 1)]
  norm_num

theorem sampleFist_not_ext (tip pip : ℕ) (ht : sampleFist tip = sampleFist pip) :
    ¬ fingerExtended sampleFist tip pip := by
  unfold fingerExtended
  rw [ht, sampleFist_handScale]
  intro h
  linarith

theorem sampleFist_not_pinch : ¬ isPinchPoseP sampleFist := by
  unfold isPinchPoseP
  rw [show sampleFist 4 = (⟨1.2, 0, 0⟩ : Pt) from rfl,
    show sampleFist 8 = (⟨2, 0, 0⟩ : Pt) from rfl, dist3_xaxis, sampleFist_handScale,
    show |(1.2:ℝ) - 2| = 0.8 by rw [abs_eq (by norm_num : (0:ℝ) ≤ 0.8)]; norm_num]
  norm_num

theorem sampleFist_gesture : gestureOf sampleFist = GestureType.CLOSED_FIST := by
  have hi : ¬ indexExtP sampleFist := sampleFist_not_ext 8 6 rfl
  have hm : ¬ middleExtP sampleFist := sampleFist_not_ext 12 10 rfl
  have hr : ¬ ringExtP sampleFist := sampleFist_not_ext 16 14 rfl
  have hk : ¬ pinkyExtP sampleFist := sampleFist_not_ext 20 18 rfl
  have hp : ¬ isPinchPoseP sampleFist := sampleFist_not_pinch
  unfold gestureOf
  rw [if_neg (fun h => hp h.1), if_neg hp, if_neg (fun h => hi h.1),
    if_pos ⟨hi, hm, hr, hk⟩]

/-- C8, counterexample: `sampleFist` is accepted and classified CLOSED_FIST,
but scaling all its landmark coordinates by the positive constant 1/100
drops the derived hand scale to 0.01, below the absolute acceptance
minimum 0.015, so the scaled set is rejected ("no hand") instead of
yielding the identical classified gesture. -/
theorem gesture_scale_claim_false :
    detectGesture sampleFist = some GestureType.CLOSED_FIST ∧
    detectGesture (scaleL (1 / 100) sampleFist) = none := by
  constructor
  · unfold detectGesture
    rw [sampleFist_handScale, if_neg (by norm_num), sampleFist_gesture]
  · unfold detectGesture
    rw [handScale_scaleL _ (by norm_num), sampleFist_handScale, if_pos (by norm_num)]

/-- Witness for `gesture_scale_invariant` at the concrete hand `sampleFist`
and factor 2. -/
theorem gesture_scale_invariant_witness :
    gestureOf (scaleL 2 sampleFist) = gestureOf sampleFist ∧
    detectGesture (scaleL 2 sampleFist) = detectGesture sampleFist :=
  ⟨(gesture_scale_invariant sampleFist 2 (by norm_num)).1,
   (gesture_scale_invariant sampleFist 2 (by norm_num)).2
     (by rw [sampleFist_handScale]; norm_num)
     (by rw [sampleFist_handScale]; norm_num)⟩

/-- Burst-energy update of the particle physics engine, one frame: on a
rising edge of the super-burst flag the energy is set to 2.8, else on a
rising edge of the burst flag it is set to 1.0; the frame's decay
`energy = max(0, energy - delta * decayFactor)` is then applied with
`decayFactor = isSuperBursting ? 1.2 : 1.8`. -/
def burstEnergyStep (energy : ℝ) (prevBursting prevSuperBursting isBursting isSuperBursting : Bool)
    (delta : ℝ) : ℝ :=
  let e1 := if isSuperBursting && !prevSuperBursting then 2.8
            else if isBursting && !prevBursting then 1.0
            else energy
  let decayFactor : ℝ := if isSuperBursting then 1.2 else 1.8
  max 0 (e1 - delta * decayFactor)

/-- C2, counterexample: over a 0.1 s frame with no rising edge, steady
super-bursting leaves energy 0.88 (rate 1.2/s) while steady normal
bursting leaves 0.82 (rate 1.8/s) — the super-burst decay is slower, not
faster as claimed. -/
theorem burst_decay_claim_false :
    burstEnergyStep 1 true true true true 0.1 = 0.88 ∧
    burstEnergyStep 1 true false true false 0.1 = 0.82 ∧
    burstEnergyStep 1 true true true true 0.1 > burstEnergyStep 1 true false true false 0.1 := by
  have h1 : burstEnergyStep 1 true true true true 0.1 = 0.88 := by
    show max 0 ((1:ℝ) - 0.1 * 1.2) = 0.88
    rw [show (1:ℝ) - 0.1 * 1.2 = 0.88 by norm_num]
    exact max_eq_right (by norm_num)
  have h2 : burstEnergyStep 1 true false true false 0.1 = 0.82 := by
    show max 0 ((1:ℝ) - 0.1 * 1.8) = 0.82
    rw [show (1:ℝ) - 0.1 * 1.8 = 0.82 by norm_num]
    exact max_eq_right (by norm_num)
  exact ⟨h1, h2, by rw [h1, h2]; norm_num⟩

/-- C2, amended: on a rising edge of the super-burst flag the energy is set
to 2.8, else on a rising edge of the burst flag to 1.0 (2.8 strictly
higher), with the frame's decay still applied after the set; otherwise the
energy decays toward zero (clamped at 0) at 1.2 per second while
super-bursting and 1.8 per second otherwise — the super-burst decay rate is
slower, not faster, than the normal one. -/
theorem burst_energy_step_amended (e : ℝ) (pB pS b s : Bool) (d : ℝ) :
    0 ≤ burstEnergyStep e pB pS b s d ∧
    (s = true → pS = false → burstEnergyStep e pB pS b s d = max 0 (2.8 - d * 1.2)) ∧
    (¬(s = true ∧ pS = false) → b = true → pB = false →
      burstEnergyStep e pB pS b s d = max 0 (1.0 - d * (if s then (1.2:ℝ) else 1.8))) ∧
    (¬(s = true ∧ pS = false) → ¬(b = true ∧ pB = false) →
      burstEnergyStep e pB pS b s d = max 0 (e - d * (if s then (1.2:ℝ) else 1.8))) ∧
    (1.0:ℝ) < 2.8 ∧ (1.2:ℝ) < 1.8 := by
  refine ⟨le_max_left _ _, ?_, ?_, ?_, by norm_num, by norm_num⟩
  · intro hs hps
    subst hs; subst hps
    rfl
  · intro h1 hb hpb
    subst hb; subst hpb
    cases s with
    | false => rfl
    | true =>
      cases pS with
      | false => exact absurd ⟨rfl, rfl⟩ h1
      | true => rfl
  · intro h1 h2
    cases s with
    | false =>
      cases b with
      | false => rfl
      | true =>
        cases pB with
        | false => exact absurd ⟨rfl, rfl⟩ h2
        | true => rfl
    | true =>
      cases pS with
      | false => exact absurd ⟨rfl, rfl⟩ h1
      | true =>
        cases b with
        | false => rfl
        | true =>
          cases pB with
          | false => exact absurd ⟨rfl, rfl⟩ h2
          | true => rfl

/-- Witness for `burst_energy_step_amended`: a no-edge, non-bursting frame
decays energy 0.5 by 0.1 s at rate 1.8/s. -/
theorem burst_energy_step_amended_witness :
    burstEnergyStep 0.5 false false false false 0.1
      = max 0 ((0.5:ℝ) - 0.1 * (if false then (1.2:ℝ) else 1.8)) :=
  (burst_energy_step_amended 0.5 false false false false 0.1).2.2.2.1
    (by simp) (by simp)

/-- Iterated burst-energy decay across frames with all flags off (no burst,
no super-burst, no rising edge): the sequence of frame deltas is folded
through `burstEnergyStep`. -/
def decayRun (e : ℝ) (ds : List ℝ) : ℝ :=
  ds.foldl (fun a d => burstEnergyStep a false false false false d) e

theorem decayRun_eq (ds : List ℝ) : ∀ e : ℝ, 0 ≤ e → (∀ d ∈ ds, 0 ≤ d) →
    decayRun e ds = max 0 (e - 1.8 * ds.sum) := by
  induction ds with
  | nil =>
    intro e he _
    simp [decayRun, max_eq_right he]
  | cons d ds ih =>
    intro e he hds
    have hd : 0 ≤ d := hds d (List.mem_cons_self d ds)
    have hsum : 0 ≤ ds.sum := List.sum_nonneg fun x hx => hds x (List.mem_cons_of_mem d hx)
    have hstep : decayRun e (d :: ds) = decayRun (max 0 (e - d * 1.8)) ds := rfl
    rw [hstep, ih (max 0 (e - d * 1.8)) (le_max_left _ _)
      (fun x hx => hds x (List.mem_cons_of_mem d hx))]
    rcases le_or_lt 0 (e - d * 1.8) with hcase | hcase
    · rw [max_eq_right hcase, List.sum_cons]
      ring_nf
    · rw [max_eq_left hcase.le, List.sum_cons]
      rw [max_eq_left (by linarith), max_eq_left (by nlinarith)]

/-- C7: starting from burst energy 1.0 with no new trigger and decay rate
1.8/s, any nonnegative frame deltas totalling 0.5 s leave energy exactly
0.1; deltas totalling 0.56 s leave energy exactly 0 (the decay result is
clamped at zero); and the energy is never negative. -/
theorem burst_energy_decay_scenario (ds1 ds2 : List ℝ)
    (h1 : ∀ d ∈ ds1, 0 ≤ d) (h2 : ∀ d ∈ ds2, 0 ≤ d)
    (hs1 : ds1.sum = 0.5) (hs2 : ds2.sum = 0.56) :
    decayRun 1 ds1 = 0.1 ∧ decayRun 1 ds2 = 0 ∧
    (∀ ds : List ℝ, (∀ d ∈ ds, 0 ≤ d) → 0 ≤ decayRun 1 ds) := by
  refine ⟨?_, ?_, ?_⟩
  · rw [decayRun_eq ds1 1 (by norm_num) h1, hs1,
      show (1:ℝ) - 1.8 * 0.5 = 0.1 by norm_num]
    exact max_eq_right (by norm_num)
  · rw [decayRun_eq ds2 1 (by norm_num) h2, hs2]
    exact max_eq_left (by norm_num)
  · intro ds hds
    rw [decayRun_eq ds 1 (by norm_num) hds]
    exact le_max_left _ _

/-- Witness for `burst_energy_decay_scenario` with two 0.25 s frames and
two 0.28 s frames. -/
theorem burst_energy_decay_scenario_witness :
    decayRun 1 [0.25, 0.25] = 0.1 ∧ decayRun 1 [0.28, 0.28] = 0 :=
  ⟨(burst_energy_decay_scenario [0.25, 0.25] [0.28, 0.28]
      (by intro d hd; simp only [List.mem_cons, List.not_mem_nil, or_false, or_self] at hd;
          rw [hd]; norm_num)
      (by intro d hd; simp only [List.mem_cons, List.not_mem_nil, or_false, or_self] at hd;
          rw [hd]; norm_num)
      (by norm_num) (by norm_num)).1,
   (burst_energy_decay_scenario [0.25, 0.25] [0.28, 0.28]
      (by intro d hd; simp only [List.mem_cons, List.not_mem_nil, or_false, or_self] at hd;
          rw [hd]; norm_num)
      (by intro d hd; simp only [List.mem_cons, List.not_mem_nil, or_false, or_self] at hd;
          rw [hd]; norm_num)
      (by norm_num) (by norm_num)).2.1⟩

/-- State of the dual-hand burst detector: the previous frame's
palm-to-palm distance (`null` when fewer than two hands were tracked on
the previous frame) and the absolute time (ms) of cooldown expiry. -/
structure BurstDetectState where
  lastHandsDistance : Option ℝ
  burstCooldown : ℝ

/-- One frame of the dual-hand burst-trigger logic: `palms` holds the two
hands' palm landmarks when at least two hands are tracked (otherwise
`none`), `now` is `Date.now()`.  Embeds: when two hands are present,
compute `currentDist = hypot(dx, dy)`; if a previous distance exists and
`now > burstCooldown` and `currentDist - lastHandsDistance > 0.045`, set
the trigger and re-arm `burstCooldown = now + 1500`; finally store
`currentDist` as the new baseline.  With fewer than two hands the baseline
is reset to `null`. -/
def burstDetectStep (st : BurstDetectState) (now : ℝ) (palms : Option (Pt × Pt)) :
    BurstDetectState × Bool :=
  match palms with
  | some (p1, p2) =>
      let currentDist := hypot2 p1 p2
      match st.lastHandsDistance with
      | some lastDist =>
          if now > st.burstCooldown ∧ currentDist - lastDist > 0.045 then
            (⟨some currentDist, now + 1500⟩, true)
          else (⟨some currentDist, st.burstCooldown⟩, false)
      | none => (⟨some currentDist, st.burstCooldown⟩, false)
  | none => (⟨none, st.burstCooldown⟩, false)

/-- A run of detector frames; returns the final state and whether any
frame raised the burst trigger. -/
def burstDetectRun (st : BurstDetectState) :
    List (ℝ × Option (Pt × Pt)) → BurstDetectState × Bool
  | [] => (st, false)
  | f :: fs =>
      let s1 := burstDetectStep st f.1 f.2
      let s2 := burstDetectRun s1.1 fs
      (s2.1, s1.2 || s2.2)

theorem burstDetectStep_none (st : BurstDetectState) (now : ℝ) :
    burstDetectStep st now none = (⟨none, st.burstCooldown⟩, false) := rfl

theorem burstDetectStep_noBaseline (cd now : ℝ) (p1 p2 : Pt) :
    burstDetectStep ⟨none, cd⟩ now (some (p1, p2))
      = (⟨some (hypot2 p1 p2), cd⟩, false) := rfl

theorem burstDetectStep_fire (cd now d0 : ℝ) (p1 p2 : Pt)
    (h : now > cd ∧ hypot2 p1 p2 - d0 > 0.045) :
    burstDetectStep ⟨some d0, cd⟩ now (some (p1, p2))
      = (⟨some (hypot2 p1 p2), now + 1500⟩, true) := by
  show (if now > cd ∧ hypot2 p1 p2 - d0 > 0.045 then
      ((⟨some (hypot2 p1 p2), now + 1500⟩ : BurstDetectState), true)
    else (⟨some (hypot2 p1 p2), cd⟩, false)) = _
  rw [if_pos h]

theorem burstDetectStep_noFire (cd now d0 : ℝ) (p1 p2 : Pt)
    (h : ¬(now > cd ∧ hypot2 p1 p2 - d0 > 0.045)) :
    burstDetectStep ⟨some d0, cd⟩ now (some (p1, p2))
      = (⟨some (hypot2 p1 p2), cd⟩, false) := by
  show (if now > cd ∧ hypot2 p1 p2 - d0 > 0.045 then
      ((⟨some (hypot2 p1 p2), now + 1500⟩ : BurstDetectState), true)
    else (⟨some (hypot2 p1 p2), cd⟩, false)) = _
  rw [if_neg h]

theorem burstDetectStep_cooldown_preserved (st : BurstDetectState) (now : ℝ)
    (palms : Option (Pt × Pt)) (hf : (burstDetectStep st now palms).2 = false) :
    (burstDetectStep st now palms).1.burstCooldown = st.burstCooldown := by
  obtain ⟨last, cd⟩ := st
  cases palms with
  | none => rfl
  | some pp =>
    obtain ⟨p1, p2⟩ := pp
    cases last with
    | none => rfl
    | some d0 =>
      by_cases h : now > cd ∧ hypot2 p1 p2 - d0 > 0.045
      · rw [burstDetectStep_fire cd now d0 p1 p2 h] at hf
        exact absurd hf (by simp)
      · rw [burstDetectStep_noFire cd now d0 p1 p2 h]

theorem burstDetectStep_noFire_of_cooldown (st : BurstDetectState) (now : ℝ)
    (palms : Option (Pt × Pt)) (h : now ≤ st.burstCooldown) :
    (burstDetectStep st now palms).2 = false := by
  obtain ⟨last, cd⟩ := st
  cases palms with
  | none => rfl
  | some pp =>
    obtain ⟨p1, p2⟩ := pp
    cases last with
    | none => rfl
    | some d0 =>
      rw [burstDetectStep_noFire cd now d0 p1 p2 (fun hc => absurd hc.1 (not_lt.mpr h))]

theorem burstDetectRun_quiet (T : ℝ) :
    ∀ (frames : List (ℝ × Option (Pt × Pt))) (st : BurstDetectState),
      T ≤ st.burstCooldown → (∀ f ∈ frames, f.1 ≤ T) →
      (burstDetectRun st frames).2 = false := by
  intro frames
  induction frames with
  | nil => intro st _ _; rfl
  | cons f fs ih =>
    intro st hcd hfr
    have hnow : f.1 ≤ st.burstCooldown :=
      le_trans (hfr f (List.mem_cons_self f fs)) hcd
    have hno : (burstDetectStep st f.1 f.2).2 = false :=
      burstDetectStep_noFire_of_cooldown st f.1 f.2 hnow
    have hcd' : T ≤ (burstDetectStep st f.1 f.2).1.burstCooldown := by
      rw [burstDetectStep_cooldown_preserved st f.1 f.2 hno]
      exact hcd
    show ((burstDetectRun (burstDetectStep st f.1 f.2).1 fs).1,
        (burstDetectStep st f.1 f.2).2 || (burstDetectRun (burstDetectStep st f.1 f.2).1 fs).2).2
      = false
    rw [hno]
    simp only [Bool.false_or]
    exact ih (burstDetectStep st f.1 f.2).1 hcd' fun g hg => hfr g (List.mem_cons_of_mem f hg)

theorem hypot2_xaxis (a b az bz : ℝ) : hypot2 ⟨a, 0, az⟩ ⟨b, 0, bz⟩ = |a - b| := by
  show Real.sqrt ((a - b) ^ 2 + (0 - 0) ^ 2) = |a - b|
  rw [show (a - b) ^ 2 + ((0:ℝ) - 0) ^ 2 = (a - b) ^ 2 by ring]
  exact Real.sqrt_sq_eq_abs _

/-- C5: the burst trigger fires on a frame exactly when two hands are
tracked, a previous-frame palm distance baseline exists, the cooldown has
elapsed (`now > burstCooldown`), and the distance increased by more than
0.045 over the baseline; firing re-arms the cooldown to `now + 1500` ms,
during which no later frame can trigger; a frame with fewer than two hands
resets the baseline to `null`, and no frame without a baseline can
trigger. -/
theorem burst_trigger_spec (st : BurstDetectState) (now : ℝ) (palms : Option (Pt × Pt)) :
    ((burstDetectStep st now palms).2 = true ↔
      ∃ p1 p2 d0, palms = some (p1, p2) ∧ st.lastHandsDistance = some d0 ∧
        now > st.burstCooldown ∧ hypot2 p1 p2 - d0 > 0.045) ∧
    ((burstDetectStep st now palms).2 = true →
      (burstDetectStep st now palms).1.burstCooldown = now + 1500) ∧
    (palms = none → (burstDetectStep st now palms).1.lastHandsDistance = none) ∧
    (st.lastHandsDistance = none → (burstDetectStep st now palms).2 = false) ∧
    ((burstDetectStep st now palms).2 = true →
      ∀ frames : List (ℝ × Option (Pt × Pt)), (∀ f ∈ frames, f.1 ≤ now + 1500) →
        (burstDetectRun (burstDetectStep st now palms).1 frames).2 = false) := by
  obtain ⟨last, cd⟩ := st
  cases palms with
  | none =>
    rw [burstDetectStep_none]
    simp
  | some pp =>
    obtain ⟨p1, p2⟩ := pp
    cases last with
    | none =>
      rw [burstDetectStep_noBaseline]
      simp
    | some d0 =>
      by_cases h : now > cd ∧ hypot2 p1 p2 - d0 > 0.045
      · rw [burstDetectStep_fire cd now d0 p1 p2 h]
        refine ⟨?_, fun _ => rfl, fun hp => Option.noConfusion hp,
          fun hl => Option.noConfusion hl, ?_⟩
        · exact ⟨fun _ => ⟨p1, p2, d0, rfl, rfl, h.1, h.2⟩, fun _ => rfl⟩
        · intro _ frames hfr
          exact burstDetectRun_quiet (now + 1500) frames
            ⟨some (hypot2 p1 p2), now + 1500⟩ le_rfl hfr
      · rw [burstDetectStep_noFire cd now d0 p1 p2 h]
        refine ⟨?_, fun hf => Bool.noConfusion hf, fun hp => Option.noConfusion hp,
          fun _ => rfl, fun hf => Bool.noConfusion hf⟩
        constructor
        · intro hf
          exact Bool.noConfusion hf
        · rintro ⟨q1, q2, d0', hpalms, hlast, h1, h2⟩
          simp only [Option.some.injEq, Prod.mk.injEq] at hpalms hlast
          obtain ⟨rfl, rfl⟩ := hpalms
          subst hlast
          exact absurd ⟨h1, h2⟩ h

/-- Witness for `burst_trigger_spec`: baseline 0.1, palms 0.2 apart, time 1
(cooldown 0 elapsed) — the trigger fires, the cooldown is re-armed to
1501, and a later qualifying frame at time 1400 does not trigger. -/
theorem burst_trigger_spec_witness :
    (burstDetectStep ⟨some 0.1, 0⟩ 1 (some (⟨0, 0, 0⟩, ⟨0.2, 0, 0⟩))).2 = true ∧
    (burstDetectStep ⟨some 0.1, 0⟩ 1 (some (⟨0, 0, 0⟩, ⟨0.2, 0, 0⟩))).1.burstCooldown
      = 1 + 1500 ∧
    (burstDetectRun (burstDetectStep ⟨some 0.1, 0⟩ 1 (some (⟨0, 0, 0⟩, ⟨0.2, 0, 0⟩))).1
        [(1400, some (⟨0, 0, 0⟩, ⟨9, 0, 0⟩))]).2 = false := by
  have hd : hypot2 (⟨0, 0, 0⟩ : Pt) (⟨0.2, 0, 0⟩ : Pt) = 0.2 := by
    rw [hypot2_xaxis, abs_eq (by norm_num : (0:ℝ) ≤ 0.2)]
    norm_num
  have htrig : (burstDetectStep ⟨some 0.1, 0⟩ 1 (some (⟨0, 0, 0⟩, ⟨0.2, 0, 0⟩))).2 = true :=
    (burst_trigger_spec ⟨some 0.1, 0⟩ 1 (some (⟨0, 0, 0⟩, ⟨0.2, 0, 0⟩))).1.mpr
      ⟨⟨0, 0, 0⟩, ⟨0.2, 0, 0⟩, 0.1, rfl, rfl, by norm_num, by rw [hd]; norm_num⟩
  refine ⟨htrig,
    (burst_trigger_spec ⟨some 0.1, 0⟩ 1 (some (⟨0, 0, 0⟩, ⟨0.2, 0, 0⟩))).2.1 htrig,
    (burst_trigger_spec ⟨some 0.1, 0⟩ 1 (some (⟨0, 0, 0⟩, ⟨0.2, 0, 0⟩))).2.2.2.2 htrig _ ?_⟩
  intro f hf
  simp only [List.mem_cons, List.not_mem_nil, or_false] at hf
  rw [hf]
  norm_num

/-- The lane count `LANES_COUNT = 5`. -/
def LANES_COUNT : ℕ := 5

/-- The constant `OBSTACLE_COUNT = 120`: the fixed pool capacity of the two-player
space game. -/
def OBSTACLE_COUNT : ℕ := 120

/-- A pooled obstacle: position/rotation/rotation-speed vectors, active
flag, speed, scale and type. -/
structure Obstacle where
  position : Pt
  rotation : Pt
  rotSpeed : Pt
  active : Bool
  speed : ℝ
  scale : ℝ
  type : ObstacleType

instance : Inhabited Obstacle :=
  ⟨⟨⟨0, 0, 0⟩, ⟨0, 0, 0⟩, ⟨0, 0, 0⟩, false, 0, 1, ObstacleType.OBSTACLE⟩⟩

/-- The slow factor `speedMultiplier = slowTimer > 0 ? 0.4 : 1.0`. -/
def speedMultiplier (slowTimer : ℝ) : ℝ := if slowTimer > 0 then 0.4 else 1.0

/-- The world speed `globalSpeed = Math.min(240, 90 + score * 0.15) * speedMultiplier`. -/
def globalSpeed (score slowTimer : ℝ) : ℝ :=
  min 240 (90 + score * 0.15) * speedMultiplier slowTimer

/-- Candidate lanes of a spawn wave: all lane indices below `LANES_COUNT`
except the current safe lane. -/
def candidateLanes (safeLane : ℕ) : List ℕ :=
  (List.range LANES_COUNT).filter (fun l => l != safeLane)

/-- The in-place swap `[c[i], c[j]] = [c[j], c[i]]` on a lane list. -/
def swapList (c : List ℕ) (i j : ℕ) : List ℕ :=
  (c.set i (c.getD j 0)).set j (c.getD i 0)

/-- The Fisher-Yates loop `for (i = n-1; i > 0; i--) swap(c[i], c[rand(0..i)])`;
the oracle `js i` supplies the raw random draw for index `i`, reduced
modulo `i + 1` exactly as `Math.floor(Math.random() * (i + 1))` lands in
`[0, i]`. -/
def fisherYates (js : ℕ → ℕ) : ℕ → List ℕ → List ℕ
  | 0, c => c
  | i + 1, c => fisherYates js i (swapList c (i + 1) (js (i + 1) % (i + 2)))

/-- Shuffling a lane list: the Fisher-Yates loop started at `length - 1`. -/
def shuffleLanes (js : ℕ → ℕ) (c : List ℕ) : List ℕ := fisherYates js (c.length - 1) c

/-- The shuffled candidate-lane order used by a spawn wave. -/
def candidateOrder (js : ℕ → ℕ) (safeLane : ℕ) : List ℕ :=
  shuffleLanes js (candidateLanes safeLane)

/-- Weighted obstacle-type roll: `rand < 0.08` HEAL, else `rand < 0.13`
SLOW, else OBSTACLE. -/
def rollType (r : ℝ) : ObstacleType :=
  if r < 0.08 then ObstacleType.HEAL
  else if r < 0.13 then ObstacleType.SLOW
  else ObstacleType.OBSTACLE

/-- The lane center `laneYCenter = -(height/2) + lane * laneHeight + laneHeight/2` with
`laneHeight = height / LANES_COUNT`. -/
def laneYCenter (height : ℝ) (lane : ℕ) : ℝ :=
  -(height / 2) + (lane : ℝ) * (height / (LANES_COUNT : ℝ)) + height / (LANES_COUNT : ℝ) / 2

/-- Activation of one pool slot by a spawn wave: type rolled from
`typeRand`; position set to the spawn column `width/2 + 30` and the target
lane's y-center plus a vertical offset `(yRand - 0.5) * laneHeight * 0.3`;
speed set to `globalSpeed * (0.95 + speedRand * 0.1)`; scale
`randFloat(1.8, 3.8)` for OBSTACLE and 2.5 otherwise.  Rotation and
rotation speed of the slot persist. -/
def spawnObstacle (old : Obstacle) (gs width height : ℝ) (lane : ℕ)
    (typeRand yRand speedRand scaleRand : ℝ) : Obstacle :=
  let t := rollType typeRand
  let laneHeight := height / (LANES_COUNT : ℝ)
  { old with
    active := true
    type := t
    position := ⟨width / 2 + 30, laneYCenter height lane + (yRand - 0.5) * (laneHeight * 0.3), 0⟩
    speed := gs * (0.95 + speedRand * 0.1)
    scale := if t = ObstacleType.OBSTACLE then 1.8 + scaleRand * (3.8 - 1.8) else 2.5 }

/-- Result of a spawn wave: the updated pool, the number of obstacles
activated in the wave, and the target lanes they were placed into. -/
structure SpawnResult where
  pool : List Obstacle
  spawned : ℕ
  lanes : List ℕ

/-- The spawn loop: scan the pool while `spawnedThisTurn < finalSpawnCount`
and `spawnedThisTurn < candidateLanes.length`; each inactive slot is
activated into lane `cands[spawnedThisTurn]`.  The oracles are indexed by
pool-slot index. -/
def spawnLoop (cands : List ℕ) (finalCount : ℕ) (gs width height : ℝ)
    (typeR yR speedR scaleR : ℕ → ℝ) :
    List Obstacle → ℕ → ℕ → SpawnResult
  | [], _, spawned => ⟨[], spawned, []⟩
  | obs :: rest, i, spawned =>
    if spawned < finalCount ∧ spawned < cands.length then
      if obs.active then
        let r := spawnLoop cands finalCount gs width height typeR yR speedR scaleR
          rest (i + 1) spawned
        ⟨obs :: r.pool, r.spawned, r.lanes⟩
      else
        let lane := cands.getD spawned 0
        let obs' := spawnObstacle obs gs width height lane (typeR i) (yR i) (speedR i) (scaleR i)
        let r := spawnLoop cands finalCount gs width height typeR yR speedR scaleR
          rest (i + 1) (spawned + 1)
        ⟨obs' :: r.pool, r.spawned, lane :: r.lanes⟩
    else ⟨obs :: rest, spawned, []⟩

/-- One spawn wave: compute the shuffled candidate lanes (excluding the
safe lane) and run the spawn loop over the pool. -/
def spawnWave (safeLane : ℕ) (js : ℕ → ℕ) (finalCount : ℕ) (gs width height : ℝ)
    (typeR yR speedR scaleR : ℕ → ℝ) (pool : List Obstacle) : SpawnResult :=
  spawnLoop (candidateOrder js safeLane) finalCount gs width height typeR yR speedR scaleR
    pool 0 0

/-- The number of active obstacles in the pool. -/
def countActive (pool : List Obstacle) : ℕ := (pool.filter (fun o => o.active)).length

/-- Per-frame advance of an active obstacle: move left by
`(slowTimer > 0 ? speed * 0.5 : speed) * delta` and rotate. -/
def advanceObs (obs : Obstacle) (slowTimer delta : ℝ) : Obstacle :=
  let currentObsSpeed := if slowTimer > 0 then obs.speed * 0.5 else obs.speed
  { obs with
    position := ⟨obs.position.x - currentObsSpeed * delta, obs.position.y, obs.position.z⟩
    rotation := ⟨obs.rotation.x + obs.rotSpeed.x * delta,
                 obs.rotation.y + obs.rotSpeed.y * delta, obs.rotation.z⟩ }

/-- A tracked player volume: position reference and scale reference. -/
structure Player where
  position : Pt
  scale : ℝ

/-- The collision threshold `hitThreshold = 25 * playerScale + obs.scale * 1.2`. -/
def hitThreshold (obs : Obstacle) (p : Player) : ℝ := 25 * p.scale + obs.scale * 1.2

/-- The collision test `obs.position.distanceTo(playerPos) < hitThreshold`. -/
def withinThreshold (obs : Obstacle) (p : Player) : Prop :=
  dist3 obs.position p.position < hitThreshold obs p

/-- The collision scan `for (p = 0; ...; p++) { if (dist < threshold) { hit = p; break } }`:
the first (lowest-index) player within threshold, if any. -/
def findHitPlayer (obs : Obstacle) : List Player → Option ℕ
  | [] => none
  | p :: ps => if withinThreshold obs p then some 0 else (findHitPlayer obs ps).map (· + 1)

/-- Events dispatched to the game-state collaborator. -/
inductive GameEvent where
  | onHit (playerIndex : ℕ)
  | onHeal (playerIndex : ℕ)
  | onSlow (playerIndex : ℕ)
  deriving DecidableEq, Repr

/-- The dispatch choice by obstacle type: HEAL heals, SLOW slows,
OBSTACLE hits. -/
def eventFor (t : ObstacleType) (p : ℕ) : GameEvent :=
  match t with
  | ObstacleType.HEAL => GameEvent.onHeal p
  | ObstacleType.SLOW => GameEvent.onSlow p
  | ObstacleType.OBSTACLE => GameEvent.onHit p

/-- Result of one obstacle's frame update: the updated slot, the dispatched
event (if any), the points passed to `onScore` (if called), and the
updated slow timer. -/
structure FrameResult where
  obs : Obstacle
  event : Option GameEvent
  scorePoints : Option ℝ
  slowTimer : ℝ

/-- One active obstacle's frame update: advance, then resolve collision
against the players in index order (dispatch one event by type, deactivate,
SLOW re-arms the 5 s slow timer), else deactivate and call
`onScore(type === OBSTACLE ? 10 : 0)` when past the left boundary
`-(width/2) - 50`; inactive slots are left unchanged. -/
def obstacleFrame (obs : Obstacle) (players : List Player) (slowTimer delta width : ℝ) :
    FrameResult :=
  if obs.active then
    let moved := advanceObs obs slowTimer delta
    match findHitPlayer moved players with
    | some p =>
        ⟨{ moved with active := false }, some (eventFor moved.type p), none,
          if moved.type = ObstacleType.SLOW then 5 else slowTimer⟩
    | none =>
        if moved.position.x < -(width / 2) - 50 then
          ⟨{ moved with active := false }, none,
            some (if moved.type = ObstacleType.OBSTACLE then 10 else 0), slowTimer⟩
        else ⟨moved, none, none, slowTimer⟩
  else ⟨obs, none, none, slowTimer⟩

theorem getD_mem (c : List ℕ) (j : ℕ) (hj : j < c.length) : c.getD j 0 ∈ c := by
  rw [List.getD_eq_getElem c 0 hj]
  exact List.get_mem c j hj

theorem swapList_length (c : List ℕ) (i j : ℕ) :
    (swapList c i j).length = c.length := by
  simp [swapList, List.length_set]

theorem swapList_mem (c : List ℕ) (i j : ℕ) (hi : i < c.length) (hj : j < c.length)
    (x : ℕ) (hx : x ∈ swapList c i j) : x ∈ c := by
  unfold swapList at hx
  rcases List.mem_or_eq_of_mem_set hx with hx1 | rfl
  · rcases List.mem_or_eq_of_mem_set hx1 with hx2 | rfl
    · exact hx2
    · exact getD_mem c j hj
  · exact getD_mem c i hi

theorem fisherYates_facts (js : ℕ → ℕ) :
    ∀ (i : ℕ) (c : List ℕ), i < c.length →
      (fisherYates js i c).length = c.length ∧ ∀ x ∈ fisherYates js i c, x ∈ c := by
  intro i
  induction i with
  | zero => exact fun c _ => ⟨rfl, fun x hx => hx⟩
  | succ i ih =>
    intro c hc
    have hj : js (i + 1) % (i + 2) < c.length :=
      lt_of_lt_of_le (Nat.mod_lt _ (Nat.succ_pos _)) (Nat.succ_le_of_lt hc)
    have hlen : (swapList c (i + 1) (js (i + 1) % (i + 2))).length = c.length :=
      swapList_length c _ _
    have hi' : i < (swapList c (i + 1) (js (i + 1) % (i + 2))).length := by
      rw [hlen]
      exact lt_trans (Nat.lt_succ_self i) hc
    obtain ⟨hl, hm⟩ := ih (swapList c (i + 1) (js (i + 1) % (i + 2))) hi'
    refine ⟨?_, ?_⟩
    · show (fisherYates js i (swapList c (i + 1) (js (i + 1) % (i + 2)))).length = c.length
      rw [hl, hlen]
    · intro x hx
      exact swapList_mem c (i + 1) _ hc hj x (hm x hx)

theorem shuffleLanes_facts (js : ℕ → ℕ) (c : List ℕ) :
    (shuffleLanes js c).length = c.length ∧ ∀ x ∈ shuffleLanes js c, x ∈ c := by
  cases c with
  | nil => exact ⟨rfl, fun x hx => hx⟩
  | cons a as =>
    exact fisherYates_facts js ((a :: as).length - 1) (a :: as)
      (by simp only [List.length_cons]; omega)

theorem mem_candidateLanes_ne (safeLane x : ℕ) (hx : x ∈ candidateLanes safeLane) :
    x ≠ safeLane := by
  unfold candidateLanes at hx
  rw [List.mem_filter] at hx
  simpa using hx.2

theorem safeLane_not_mem_candidateOrder (js : ℕ → ℕ) (safeLane : ℕ) :
    safeLane ∉ candidateOrder js safeLane := fun h =>
  mem_candidateLanes_ne safeLane safeLane
    ((shuffleLanes_facts js (candidateLanes safeLane)).2 safeLane h) rfl

theorem spawnLoop_cons_stop (cands : List ℕ) (finalCount : ℕ) (gs width height : ℝ)
    (typeR yR speedR scaleR : ℕ → ℝ) (obs : Obstacle) (rest : List Obstacle) (i spawned : ℕ)
    (h : ¬(spawned < finalCount ∧ spawned < cands.length)) :
    spawnLoop cands finalCount gs width height typeR yR speedR scaleR (obs :: rest) i spawned
      = ⟨obs :: rest, spawned, []⟩ := by
  simp only [spawnLoop]
  rw [if_neg h]

theorem spawnLoop_cons_active (cands : List ℕ) (finalCount : ℕ) (gs width height : ℝ)
    (typeR yR speedR scaleR : ℕ → ℝ) (obs : Obstacle) (rest : List Obstacle) (i spawned : ℕ)
    (hg : spawned < finalCount ∧ spawned < cands.length) (ha : obs.active = true) :
    spawnLoop cands finalCount gs width height typeR yR speedR scaleR (obs :: rest) i spawned
      = ⟨obs :: (spawnLoop cands finalCount gs width height typeR yR speedR scaleR
            rest (i + 1) spawned).pool,
         (spawnLoop cands finalCount gs width height typeR yR speedR scaleR
            rest (i + 1) spawned).spawned,
         (spawnLoop cands finalCount gs width height typeR yR speedR scaleR
            rest (i + 1) spawned).lanes⟩ := by
  simp only [spawnLoop]
  rw [if_pos hg, if_pos ha]

theorem spawnLoop_cons_spawn (cands : List ℕ) (finalCount : ℕ) (gs width height : ℝ)
    (typeR yR speedR scaleR : ℕ → ℝ) (obs : Obstacle) (rest : List Obstacle) (i spawned : ℕ)
    (hg : spawned < finalCount ∧ spawned < cands.length) (ha : obs.active = false) :
    spawnLoop cands finalCount gs width height typeR yR speedR scaleR (obs :: rest) i spawned
      = ⟨spawnObstacle obs gs width height (cands.getD spawned 0)
            (typeR i) (yR i) (speedR i) (scaleR i)
          :: (spawnLoop cands finalCount gs width height typeR yR speedR scaleR
                rest (i + 1) (spawned + 1)).pool,
         (spawnLoop cands finalCount gs width height typeR yR speedR scaleR
            rest (i + 1) (spawned + 1)).spawned,
         cands.getD spawned 0
          :: (spawnLoop cands finalCount gs width height typeR yR speedR scaleR
                rest (i + 1) (spawned + 1)).lanes⟩ := by
  simp only [spawnLoop]
  rw [if_pos hg, ha, if_neg Bool.false_ne_true]

theorem spawnLoop_spawned_le (cands : List ℕ) (finalCount : ℕ) (gs width height : ℝ)
    (typeR yR speedR scaleR : ℕ → ℝ) :
    ∀ (pool : List Obstacle) (i spawned : ℕ), spawned ≤ cands.length →
      (spawnLoop cands finalCount gs width height typeR yR speedR scaleR
        pool i spawned).spawned ≤ cands.length := by
  intro pool
  induction pool with
  | nil => exact fun i spawned h => h
  | cons obs rest ih =>
    intro i spawned h
    by_cases hg : spawned < finalCount ∧ spawned < cands.length
    · cases ha : obs.active with
      | true =>
        rw [spawnLoop_cons_active cands finalCount gs width height typeR yR speedR scaleR
          obs rest i spawned hg ha]
        exact ih (i + 1) spawned h
      | false =>
        rw [spawnLoop_cons_spawn cands finalCount gs width height typeR yR speedR scaleR
          obs rest i spawned hg ha]
        exact ih (i + 1) (spawned + 1) (Nat.succ_le_of_lt hg.2)
    · rw [spawnLoop_cons_stop cands finalCount gs width height typeR yR speedR scaleR
        obs rest i spawned hg]
      exact h

theorem spawnLoop_lanes_mem (cands : List ℕ) (finalCount : ℕ) (gs width height : ℝ)
    (typeR yR speedR scaleR : ℕ → ℝ) :
    ∀ (pool : List Obstacle) (i spawned : ℕ),
      ∀ l ∈ (spawnLoop cands finalCount gs width height typeR yR speedR scaleR
        pool i spawned).lanes, l ∈ cands := by
  intro pool
  induction pool with
  | nil => intro i spawned l hl; exact absurd hl (List.not_mem_nil l)
  | cons obs rest ih =>
    intro i spawned l hl
    by_cases hg : spawned < finalCount ∧ spawned < cands.length
    · cases ha : obs.active with
      | true =>
        rw [spawnLoop_cons_active cands finalCount gs width height typeR yR speedR scaleR
          obs rest i spawned hg ha] at hl
        exact ih (i + 1) spawned l hl
      | false =>
        rw [spawnLoop_cons_spawn cands finalCount gs width height typeR yR speedR scaleR
          obs rest i spawned hg ha] at hl
        rcases List.mem_cons.mp hl with rfl | hl'
        · exact getD_mem cands spawned hg.2
        · exact ih (i + 1) (spawned + 1) l hl'
    · rw [spawnLoop_cons_stop cands finalCount gs width height typeR yR speedR scaleR
        obs rest i spawned hg] at hl
      exact absurd hl (List.not_mem_nil l)

theorem spawnLoop_pool_length (cands : List ℕ) (finalCount : ℕ) (gs width height : ℝ)
    (typeR yR speedR scaleR : ℕ → ℝ) :
    ∀ (pool : List Obstacle) (i spawned : ℕ),
      (spawnLoop cands finalCount gs width height typeR yR speedR scaleR
        pool i spawned).pool.length = pool.length := by
  intro pool
  induction pool with
  | nil => exact fun i spawned => rfl
  | cons obs rest ih =>
    intro i spawned
    by_cases hg : spawned < finalCount ∧ spawned < cands.length
    · cases ha : obs.active with
      | true =>
        rw [spawnLoop_cons_active cands finalCount gs width height typeR yR speedR scaleR
          obs rest i spawned hg ha]
        simp only [List.length_cons, ih (i + 1) spawned]
      | false =>
        rw [spawnLoop_cons_spawn cands finalCount gs width height typeR yR speedR scaleR
          obs rest i spawned hg ha]
        simp only [List.length_cons, ih (i + 1) (spawned + 1)]
    · rw [spawnLoop_cons_stop cands finalCount gs width height typeR yR speedR scaleR
        obs rest i spawned hg]

theorem spawnLoop_active_preserved (cands : List ℕ) (finalCount : ℕ) (gs width height : ℝ)
    (typeR yR speedR scaleR : ℕ → ℝ) :
    ∀ (pool : List Obstacle) (i spawned j : ℕ),
      (pool.getD j default).active = true →
      (spawnLoop cands finalCount gs width height typeR yR speedR scaleR
        pool i spawned).pool.getD j default = pool.getD j default := by
  intro pool
  induction pool with
  | nil => exact fun i spawned j _ => rfl
  | cons obs rest ih =>
    intro i spawned j hact
    by_cases hg : spawned < finalCount ∧ spawned < cands.length
    · cases ha : obs.active with
      | true =>
        rw [spawnLoop_cons_active cands finalCount gs width height typeR yR speedR scaleR
          obs rest i spawned hg ha]
        cases j with
        | zero => rfl
        | succ j =>
          show (spawnLoop cands finalCount gs width height typeR yR speedR scaleR
            rest (i + 1) spawned).pool.getD j default = rest.getD j default
          exact ih (i + 1) spawned j hact
      | false =>
        cases j with
        | zero =>
          rw [List.getD_cons_zero] at hact
          rw [hact] at ha
          exact absurd ha (by simp)
        | succ j =>
          rw [spawnLoop_cons_spawn cands finalCount gs width height typeR yR speedR scaleR
            obs rest i spawned hg ha]
          show (spawnLoop cands finalCount gs width height typeR yR speedR scaleR
            rest (i + 1) (spawned + 1)).pool.getD j default = rest.getD j default
          exact ih (i + 1) (spawned + 1) j hact
    · rw [spawnLoop_cons_stop cands finalCount gs width height typeR yR speedR scaleR
        obs rest i spawned hg]

/-- C1: in every spawn wave the candidate lanes (all lanes shuffled, minus
the current safe lane) exclude the safe lane; every lane an obstacle is
placed into during the wave is a candidate lane, hence not the safe lane;
and the number of obstacles spawned in the wave never exceeds the number
of candidate lanes. -/
theorem spawn_wave_safe_lane (safeLane : ℕ) (js : ℕ → ℕ) (finalCount : ℕ)
    (gs width height : ℝ) (typeR yR speedR scaleR : ℕ → ℝ) (pool : List Obstacle) :
    safeLane ∉ candidateOrder js safeLane ∧
    (∀ l ∈ (spawnWave safeLane js finalCount gs width height typeR yR speedR scaleR
        pool).lanes, l ≠ safeLane) ∧
    (spawnWave safeLane js finalCount gs width height typeR yR speedR scaleR pool).spawned
      ≤ (candidateOrder js safeLane).length := by
  refine ⟨safeLane_not_mem_candidateOrder js safeLane, ?_, ?_⟩
  · intro l hl heq
    subst heq
    exact safeLane_not_mem_candidateOrder js l
      (spawnLoop_lanes_mem (candidateOrder js l) finalCount gs width height
        typeR yR speedR scaleR pool 0 0 l hl)
  · exact spawnLoop_spawned_le (candidateOrder js safeLane) finalCount gs width height
      typeR yR speedR scaleR pool 0 0 (Nat.zero_le _)

/-- An active sample slot for concrete evaluations of the pool lemmas. -/
def sampleActiveObs : Obstacle :=
  ⟨⟨0, 0, 0⟩, ⟨0, 0, 0⟩, ⟨0, 0, 0⟩, true, 0, 1, ObstacleType.OBSTACLE⟩

/-- Witness for `spawn_wave_safe_lane` at safe lane 2 with a concrete
oracle and a one-slot pool. -/
theorem spawn_wave_safe_lane_witness :
    2 ∉ candidateOrder (fun _ => 0) 2 ∧
    (spawnWave 2 (fun _ => 0) 2 100 100 100 (fun _ => 1) (fun _ => 0) (fun _ => 0)
      (fun _ => 0) [sampleActiveObs]).spawned ≤ (candidateOrder (fun _ => 0) 2).length :=
  ⟨(spawn_wave_safe_lane 2 (fun _ => 0) 2 100 100 100 (fun _ => 1) (fun _ => 0)
      (fun _ => 0) (fun _ => 0) [sampleActiveObs]).1,
   (spawn_wave_safe_lane 2 (fun _ => 0) 2 100 100 100 (fun _ => 1) (fun _ => 0)
      (fun _ => 0) (fun _ => 0) [sampleActiveObs]).2.2⟩

/-- C4: a spawn wave never changes the pool's length (spawning activates
slots, it does not allocate), it leaves every already-active slot
untouched, and the number of active obstacles afterwards is at most the
pool capacity; the per-obstacle frame update never activates a slot. -/
theorem obstacle_pool_capacity (safeLane : ℕ) (js : ℕ → ℕ) (finalCount : ℕ)
    (gs width height : ℝ) (typeR yR speedR scaleR : ℕ → ℝ) (pool : List Obstacle) :
    (spawnWave safeLane js finalCount gs width height typeR yR speedR scaleR
      pool).pool.length = pool.length ∧
    countActive (spawnWave safeLane js finalCount gs width height typeR yR speedR scaleR
      pool).pool ≤ pool.length ∧
    (∀ j, (pool.getD j default).active = true →
      (spawnWave safeLane js finalCount gs width height typeR yR speedR scaleR
        pool).pool.getD j default = pool.getD j default) ∧
    (∀ (obs : Obstacle) (players : List Player) (slowT delta w : ℝ),
      (obstacleFrame obs players slowT delta w).obs.active = true → obs.active = true) := by
  refine ⟨spawnLoop_pool_length (candidateOrder js safeLane) finalCount gs width height
      typeR yR speedR scaleR pool 0 0, ?_,
    fun j => spawnLoop_active_preserved (candidateOrder js safeLane) finalCount gs width
      height typeR yR speedR scaleR pool 0 0 j, ?_⟩
  · calc countActive (spawnWave safeLane js finalCount gs width height typeR yR speedR
          scaleR pool).pool
        ≤ (spawnWave safeLane js finalCount gs width height typeR yR speedR scaleR
            pool).pool.length := List.length_filter_le _ _
      _ = pool.length := spawnLoop_pool_length (candidateOrder js safeLane) finalCount
            gs width height typeR yR speedR scaleR pool 0 0
  · intro obs players slowT delta w h
    by_cases hb : obs.active = true
    · exact hb
    · have hf : obs.active = false := Bool.eq_false_iff.mpr hb
      unfold obstacleFrame at h
      rw [hf, if_neg Bool.false_ne_true] at h
      exact h

/-- Witness for `obstacle_pool_capacity` on a one-slot pool whose slot is
already active. -/
theorem obstacle_pool_capacity_witness :
    countActive (spawnWave 2 (fun _ => 0) 2 100 100 100 (fun _ => 1) (fun _ => 0)
      (fun _ => 0) (fun _ => 0) [sampleActiveObs]).pool ≤ 1 ∧
    (spawnWave 2 (fun _ => 0) 2 100 100 100 (fun _ => 1) (fun _ => 0) (fun _ => 0)
      (fun _ => 0) [sampleActiveObs]).pool.getD 0 default
      = [sampleActiveObs].getD 0 default :=
  ⟨(obstacle_pool_capacity 2 (fun _ => 0) 2 100 100 100 (fun _ => 1) (fun _ => 0)
      (fun _ => 0) (fun _ => 0) [sampleActiveObs]).2.1,
   (obstacle_pool_capacity 2 (fun _ => 0) 2 100 100 100 (fun _ => 1) (fun _ => 0)
      (fun _ => 0) (fun _ => 0) [sampleActiveObs]).2.2.1 0 rfl⟩

theorem findHitPlayer_spec (obs : Obstacle) :
    ∀ (l : List Player) (p : ℕ), findHitPlayer obs l = some p →
      ∃ hp : p < l.length, withinThreshold obs (l.get ⟨p, hp⟩) ∧
        ∀ q (hq : q < l.length), q < p → ¬withinThreshold obs (l.get ⟨q, hq⟩) := by
  intro l
  induction l with
  | nil => intro p h; exact absurd h (by simp [findHitPlayer])
  | cons pl ps ih =>
    intro p h
    by_cases hw : withinThreshold obs pl
    · have heq : findHitPlayer obs (pl :: ps) = some 0 := by
        show (if withinThreshold obs pl then some 0
          else (findHitPlayer obs ps).map (· + 1)) = some 0
        rw [if_pos hw]
      rw [heq] at h
      obtain rfl : (0 : ℕ) = p := by injection h
      refine ⟨Nat.succ_pos _, hw, ?_⟩
      intro q hq hq0
      exact absurd hq0 (Nat.not_lt_zero q)
    · have heq : findHitPlayer obs (pl :: ps) = (findHitPlayer obs ps).map (· + 1) := by
        show (if withinThreshold obs pl then some 0
          else (findHitPlayer obs ps).map (· + 1)) = _
        rw [if_neg hw]
      rw [heq] at h
      rcases Option.map_eq_some'.mp h with ⟨p', hp', rfl⟩
      obtain ⟨hlt, hwin, hmin⟩ := ih p' hp'
      refine ⟨Nat.succ_lt_succ hlt, hwin, ?_⟩
      intro q hq hqlt
      cases q with
      | zero => exact hw
      | succ q' => exact hmin q' (Nat.lt_of_succ_lt_succ hq) (Nat.lt_of_succ_lt_succ hqlt)

theorem findHitPlayer_eq_none (obs : Obstacle) :
    ∀ l : List Player, (∀ pl ∈ l, ¬withinThreshold obs pl) → findHitPlayer obs l = none := by
  intro l
  induction l with
  | nil => intro _; rfl
  | cons pl ps ih =>
    intro h
    unfold findHitPlayer
    rw [if_neg (h pl (List.mem_cons_self pl ps)),
      ih fun q hq => h q (List.mem_cons_of_mem pl hq)]
    rfl

/-- C3: when the advanced obstacle is within the collision threshold of at
least one player (the collision scan returns an index), exactly one event
is dispatched — chosen by the obstacle's type — the obstacle is
deactivated regardless of type, no score call is made, and the dispatched
player index is the least index within threshold. -/
theorem collision_resolution (obs : Obstacle) (players : List Player)
    (slowT delta width : ℝ) (p : ℕ) (hact : obs.active = true)
    (hfind : findHitPlayer (advanceObs obs slowT delta) players = some p) :
    (obstacleFrame obs players slowT delta width).event = some (eventFor obs.type p) ∧
    (obstacleFrame obs players slowT delta width).obs.active = false ∧
    (obstacleFrame obs players slowT delta width).scorePoints = none ∧
    (obstacleFrame obs players slowT delta width).slowTimer
      = (if obs.type = ObstacleType.SLOW then 5 else slowT) ∧
    ∃ hp : p < players.length,
      withinThreshold (advanceObs obs slowT delta) (players.get ⟨p, hp⟩) ∧
      ∀ q (hq : q < players.length), q < p →
        ¬withinThreshold (advanceObs obs slowT delta) (players.get ⟨q, hq⟩) := by
  have hframe : obstacleFrame obs players slowT delta width
      = ⟨{ advanceObs obs slowT delta with active := false },
         some (eventFor (advanceObs obs slowT delta).type p), none,
         if (advanceObs obs slowT delta).type = ObstacleType.SLOW then 5 else slowT⟩ := by
    unfold obstacleFrame
    rw [if_pos hact]
    simp only [hfind]
  rw [hframe]
  exact ⟨rfl, rfl, rfl, rfl, findHitPlayer_spec (advanceObs obs slowT delta) players p hfind⟩

/-- Witness for `collision_resolution`: a stationary active OBSTACLE at the
origin with two players at distance 1 and 2, both within threshold; the
dispatched event is a hit on player 0 (the lower index). -/
theorem collision_resolution_witness :
    (obstacleFrame sampleActiveObs [⟨⟨1, 0, 0⟩, 1⟩, ⟨⟨2, 0, 0⟩, 1⟩] 0 0 100).event
        = some (GameEvent.onHit 0) ∧
    (obstacleFrame sampleActiveObs [⟨⟨1, 0, 0⟩, 1⟩, ⟨⟨2, 0, 0⟩, 1⟩] 0 0 100).obs.active
        = false := by
  have hadv : advanceObs sampleActiveObs 0 0 = sampleActiveObs := by
    norm_num [advanceObs, sampleActiveObs]
  have hwithin : withinThreshold sampleActiveObs ⟨⟨1, 0, 0⟩, 1⟩ := by
    show dist3 ⟨0, 0, 0⟩ ⟨1, 0, 0⟩ < 25 * 1 + 1 * 1.2
    rw [dist3_xaxis, abs_lt]
    constructor <;> norm_num
  have hfind : findHitPlayer (advanceObs sampleActiveObs 0 0)
      [⟨⟨1, 0, 0⟩, 1⟩, ⟨⟨2, 0, 0⟩, 1⟩] = some 0 := by
    rw [hadv]
    show (if withinThreshold sampleActiveObs ⟨⟨1, 0, 0⟩, 1⟩ then some 0
      else (findHitPlayer sampleActiveObs [⟨⟨2, 0, 0⟩, 1⟩]).map (· + 1)) = some 0
    rw [if_pos hwithin]
  have h := collision_resolution sampleActiveObs [⟨⟨1, 0, 0⟩, 1⟩, ⟨⟨2, 0, 0⟩, 1⟩]
    0 0 100 0 rfl hfind
  exact ⟨h.1, h.2.1⟩

/-- An active HEAL-type sample obstacle already past the left boundary. -/
def sampleHealObs : Obstacle :=
  ⟨⟨-200, 0, 0⟩, ⟨0, 0, 0⟩, ⟨0, 0, 0⟩, true, 0, 1, ObstacleType.HEAL⟩

/-- C9: an active obstacle that collides with no player and whose advanced
position is past the left playfield boundary is deactivated, dispatches no
event, and the score call passes 10 points exactly when its type is
OBSTACLE and 0 points otherwise (HEAL/SLOW award no score). -/
theorem offscreen_scoring (obs : Obstacle) (players : List Player)
    (slowT delta width : ℝ) (hact : obs.active = true)
    (hmiss : ∀ pl ∈ players, ¬withinThreshold (advanceObs obs slowT delta) pl)
    (hoff : (advanceObs obs slowT delta).position.x < -(width / 2) - 50) :
    (obstacleFrame obs players slowT delta width).obs.active = false ∧
    (obstacleFrame obs players slowT delta width).event = none ∧
    (obstacleFrame obs players slowT delta width).scorePoints
      = some (if obs.type = ObstacleType.OBSTACLE then (10:ℝ) else 0) ∧
    (obs.type ≠ ObstacleType.OBSTACLE →
      (obstacleFrame obs players slowT delta width).scorePoints = some 0) := by
  have hnone := findHitPlayer_eq_none (advanceObs obs slowT delta) players hmiss
  have hframe : obstacleFrame obs players slowT delta width
      = ⟨{ advanceObs obs slowT delta with active := false }, none,
         some (if (advanceObs obs slowT delta).type = ObstacleType.OBSTACLE
            then (10:ℝ) else 0), slowT⟩ := by
    unfold obstacleFrame
    rw [if_pos hact]
    simp only [hnone]
    rw [if_pos hoff]
  rw [hframe]
  refine ⟨rfl, rfl, rfl, fun hne => ?_⟩
  show some (if obs.type = ObstacleType.OBSTACLE then (10:ℝ) else 0) = some 0
  rw [if_neg hne]

/-- Witness for `offscreen_scoring`: an unhit HEAL obstacle past the
boundary is deactivated and awards 0 points. -/
theorem offscreen_scoring_witness :
    (obstacleFrame sampleHealObs [] 0 0 100).obs.active = false ∧
    (obstacleFrame sampleHealObs [] 0 0 100).scorePoints = some 0 := by
  have hadv : advanceObs sampleHealObs 0 0 = sampleHealObs := by
    norm_num [advanceObs, sampleHealObs]
  have hmiss : ∀ pl ∈ ([] : List Player),
      ¬withinThreshold (advanceObs sampleHealObs 0 0) pl :=
    fun pl h => absurd h (List.not_mem_nil pl)
  have hoff : (advanceObs sampleHealObs 0 0).position.x < -((100:ℝ) / 2) - 50 := by
    rw [hadv]
    show (-200 : ℝ) < -((100:ℝ) / 2) - 50
    norm_num
  have h := offscreen_scoring sampleHealObs [] 0 0 100 rfl hmiss hoff
  exact ⟨h.1, h.2.2.2 (fun hc => ObstacleType.noConfusion hc)⟩

/-- C10: while the slow timer is active the slow-down applies twice to an
obstacle spawned during the effect — the global speed already carries the
0.4 multiplier when it is stored into the slot's speed at spawn, and the
per-frame advance multiplies the stored speed by a further 0.5 — so such
an obstacle advances by 0.2 of its nominal (unslowed) speed per unit
time until the timer expires. -/
theorem slow_effect_double (score slowT slowT' delta width height : ℝ) (lane : ℕ)
    (old : Obstacle) (typeRand yRand speedRand scaleRand : ℝ)
    (h1 : slowT > 0) (h2 : slowT' > 0) :
    globalSpeed score slowT = 0.4 * min 240 (90 + score * 0.15) ∧
    (spawnObstacle old (globalSpeed score slowT) width height lane
        typeRand yRand speedRand scaleRand).speed
      = globalSpeed score slowT * (0.95 + speedRand * 0.1) ∧
    (advanceObs (spawnObstacle old (globalSpeed score slowT) width height lane
        typeRand yRand speedRand scaleRand) slowT' delta).position.x
      = (spawnObstacle old (globalSpeed score slowT) width height lane
          typeRand yRand speedRand scaleRand).position.x
        - 0.2 * (min 240 (90 + score * 0.15) * (0.95 + speedRand * 0.1)) * delta := by
  have hg : globalSpeed score slowT = 0.4 * min 240 (90 + score * 0.15) := by
    unfold globalSpeed speedMultiplier
    rw [if_pos h1]
    ring
  have hs : (spawnObstacle old (globalSpeed score slowT) width height lane
      typeRand yRand speedRand scaleRand).speed
      = globalSpeed score slowT * (0.95 + speedRand * 0.1) := rfl
  refine ⟨hg, hs, ?_⟩
  show (spawnObstacle old (globalSpeed score slowT) width height lane
        typeRand yRand speedRand scaleRand).position.x
      - (if slowT' > 0 then
          (spawnObstacle old (globalSpeed score slowT) width height lane
            typeRand yRand speedRand scaleRand).speed * 0.5
        else (spawnObstacle old (globalSpeed score slowT) width height lane
            typeRand yRand speedRand scaleRand).speed) * delta
      = _
  rw [if_pos h2, hs, hg]
  ring

/-- Witness for `slow_effect_double` at score 0, active slow timers and a
unit frame. -/
theorem slow_effect_double_witness :
    globalSpeed 0 1 = 0.4 * min 240 (90 + 0 * 0.15) ∧
    (advanceObs (spawnObstacle sampleActiveObs (globalSpeed 0 1) 100 100 0 1 0 0 0)
        1 1).position.x
      = (spawnObstacle sampleActiveObs (globalSpeed 0 1) 100 100 0 1 0 0 0).position.x
        - 0.2 * (min 240 (90 + 0 * 0.15) * (0.95 + 0 * 0.1)) * 1 :=
  ⟨(slow_effect_double 0 1 1 1 100 100 0 sampleActiveObs 1 0 0 0
      (by norm_num) (by norm_num)).1,
   (slow_effect_double 0 1 1 1 100 100 0 sampleActiveObs 1 0 0 0
      (by norm_num) (by norm_num)).2.2⟩

end
